import Mathlib

/-!
Shallow embedding of `server.py` from mattrasband/bamboo-build-trigger.

The program accepts a watch request over HTTP, validates it against
`BuildWatcherSchema`, spawns a detached `poll_for_up` task, and answers
immediately.  The task runs `wait_for_deploy` (a timed polling loop against
`info_url`) and, on confirmation, `trigger_build` (a single authenticated PUT
to the Bamboo queue endpoint).

Modelling conventions:
* JSON values are the inductive `PyJson` (floats carried as rationals).
* Wall-clock time is rational-valued.  `wait_for_deploy` is parameterised by
  `elapsed : Nat → ℚ`, where `elapsed k` is the value of
  `time.time() - start` observed at the top of loop iteration `k`; the
  guarantee `elapsed k + interval ≤ elapsed (k + 1)` of `asyncio.sleep`
  enters theorems as a hypothesis.
* The network is a response environment: `responses k` is what the `k`-th
  HTTP GET of the loop returns; `body = none` models `resp.json()` raising.
* The loop is written with explicit fuel and returns `none` when the fuel is
  exhausted; theorems supply enough fuel that the fuel bound is never the
  reason the recursion stops.
* `async` functions are modelled as pure functions from their environment to
  their observable effects (HTTP requests issued, tasks spawned, response
  returned); exceptions that can escape a function are modelled with
  `Except`/dedicated constructors.
-/

namespace BambooWatch

/-- A Python/JSON value as produced by `json.loads` / `resp.json()`. -/
inductive PyJson where
  | null
  | bool (b : Bool)
  | int (n : Int)
  | float (q : ℚ)
  | str (s : String)
  | arr (xs : List PyJson)
  | dict (xs : List (String × PyJson))

/-- `d.get(k)` on the entry list of a Python dict: first binding of `k`. -/
def pyLookup (xs : List (String × PyJson)) (k : String) : Option PyJson :=
  match xs with
  | [] => none
  | (k', v) :: rest => if k' = k then some v else pyLookup rest k

/-- Python truthiness of a JSON value (`if not sha:`). -/
def pyFalsy : PyJson → Bool
  | .null => true
  | .bool b => !b
  | .int n => n = 0
  | .float q => q = 0
  | .str s => s = ""
  | .arr xs => xs.isEmpty
  | .dict xs => xs.isEmpty

/-- Python `==` between a JSON value and a string (`sha == git_sha`):
only a string compares equal to a string. -/
def pyEqStr (v : PyJson) (s : String) : Bool :=
  match v with
  | .str t => t = s
  | _ => false

/-- `js.get('app', {}).get('git_sha')` from `wait_for_deploy`:
`.error ()` models the `AttributeError` raised when the receiver of `.get`
is not a dict (caught by the bare `except` in the source); an absent key
yields Python `None`, embedded as `PyJson.null`. -/
def shaField : PyJson → Except Unit PyJson
  | .dict xs =>
      match (pyLookup xs "app").getD (.dict []) with
      | .dict ys => .ok ((pyLookup ys "git_sha").getD .null)
      | _ => .error ()
  | _ => .error ()

/-- One poll response: the HTTP status and the outcome of `resp.json()`
(`none` models the parse raising, absorbed by the bare `except`). -/
structure Response where
  status : Nat
  body : Option PyJson

/-- The body of one iteration of the `wait_for_deploy` loop, after the GET:
`true` exactly when the source executes `return True`.  Non-200 status,
parse failure, a falsy/absent `app.git_sha`, and a non-matching sha all
yield `false` (the source continues the loop in each of those cases). -/
def checkResponse (resp : Response) (git_sha : String) : Bool :=
  if resp.status ≠ 200 then false
  else
    match resp.body with
    | none => false
    | some js =>
        match shaField js with
        | .error _ => false
        | .ok sha => if pyFalsy sha then false else pyEqStr sha git_sha

/-- The `while` loop of `wait_for_deploy`, with explicit fuel.
`k` is the index of the next iteration; the returned `Nat` is the number of
HTTP GET polls issued.  The loop guard is the source's
`(time.time() - start) <= (retries * interval)`, checked at the top of each
iteration, before the sleep and the GET. -/
def waitAux (responses : Nat → Response) (git_sha : String)
    (retries interval : Nat) (elapsed : Nat → ℚ) :
    Nat → Nat → Option (Bool × Nat)
  | 0, _ => none
  | fuel + 1, k =>
      if ((retries * interval : Nat) : ℚ) < elapsed k then some (false, k)
      else if checkResponse (responses k) git_sha then some (true, k + 1)
      else waitAux responses git_sha retries interval elapsed fuel (k + 1)

/-- `wait_for_deploy(url, git_sha, retries, interval)`: runs the polling
loop from iteration 0.  `responses` stands for the answers of GETs against
the `url` argument. -/
def wait_for_deploy (responses : Nat → Response) (git_sha : String)
    (retries interval : Nat) (elapsed : Nat → ℚ) (fuel : Nat) :
    Option (Bool × Nat) :=
  waitAux responses git_sha retries interval elapsed fuel 0

/-- A validated watch request, the result of a successful
`BuildWatcherSchema().load` (`request['payload']`). -/
structure Payload where
  info_url : String
  git_sha : String
  plan_key : String
  build_number : Int
deriving Repr, DecidableEq

/-- An outbound HTTP request made by `trigger_build`: method, target URL,
the `Accept`/`Content-Type` headers, and the optional basic-auth pair. -/
structure HttpRequest where
  method : String
  url : String
  accept : String
  contentType : String
  auth : Option (String × String)
deriving Repr, DecidableEq

/-- Which branch of `trigger_build` handles the PUT response:
status 400 logs "Next stage cannot be resumed", status 200 logs
"Build resumed", anything else falls through silently. -/
inductive TriggerOutcome where
  | cannotResume
  | resumed
  | silent
deriving Repr, DecidableEq

/-- Python truthiness of the `credentials` argument of `trigger_build`
(`if credentials:`): `None` is falsy; a 2-tuple has length 2 and is truthy
regardless of its components (even two empty strings). -/
def pyTruthyCreds : Option (String × String) → Bool
  | none => false
  | some _ => true

/-- `trigger_build(js, bamboo_url, credentials)` with the status of the PUT
response supplied by the environment.  Returns the list of HTTP requests
issued (the source makes exactly one `aiohttp.put`, never retried) and the
response-handling branch taken; the Python function itself returns `None`
on every path. -/
def trigger_build (js : Payload) (bamboo_url : String)
    (credentials : Option (String × String)) (respStatus : Nat) :
    List HttpRequest × TriggerOutcome :=
  let build_url := bamboo_url ++ "/rest/api/latest/queue/" ++ js.plan_key
    ++ "-" ++ toString js.build_number
  let auth := if pyTruthyCreds credentials then credentials else none
  let req : HttpRequest :=
    ⟨"PUT", build_url, "application/json", "application/json", auth⟩
  ([req],
    if respStatus = 400 then .cannotResume
    else if respStatus = 200 then .resumed
    else .silent)

/-- `poll_for_up(js, bamboo_url, credentials, retries, interval)`: awaits
`wait_for_deploy` on `js['info_url']`; on `False` it returns, on `True` it
awaits `trigger_build`.  `net url k` is the response to the `k`-th GET
against `url`; `triggerStatus` is the status of the trigger PUT response.
The result is the list of `trigger_build` invocations performed (`none`
when the poll loop's fuel ran out). -/
def poll_for_up (net : String → Nat → Response) (elapsed : Nat → ℚ)
    (fuel : Nat) (js : Payload) (bamboo_url : String)
    (credentials : Option (String × String)) (retries interval : Nat)
    (triggerStatus : Nat) :
    Option (List (List HttpRequest × TriggerOutcome)) :=
  match wait_for_deploy (net js.info_url) js.git_sha retries interval
      elapsed fuel with
  | none => none
  | some (deployed, _polls) =>
      if !deployed then some []
      else some [trigger_build js bamboo_url credentials triggerStatus]

/-! ### Request validation (`BuildWatcherSchema` and `consumes`) -/

/-- Substring test, Python's `needle in hay` on strings. -/
def strContains (hay needle : String) : Bool :=
  (List.range (hay.length + 1)).any fun i =>
    (hay.toList.drop i).take needle.length == needle.toList

/-- Leading-substring test (`hay.startswith(needle)`). -/
def strStarts (s pre : String) : Bool :=
  s.toList.take pre.length == pre.toList

/-- Modelled from the spec: the URL validator of `fields.Url` lives in the
marshmallow library, not in this repository; the spec requires `info_url`
to be "a syntactically valid absolute URL".  We model that as carrying an
explicit http(s)/ftp scheme followed by a nonempty remainder. -/
def validUrl (s : String) : Bool :=
  (strStarts s "http://" && s.length > 7)
    || (strStarts s "https://" && s.length > 8)
    || (strStarts s "ftp://" && s.length > 6)
    || (strStarts s "ftps://" && s.length > 7)

/-- `fields.Url(required=True)` applied to the value at `info_url`.
Field deserialization itself is marshmallow library code; its error
strings are modelled from the spec's validation contract. -/
def loadUrlField (d : List (String × PyJson)) : Except (List String) String :=
  match pyLookup d "info_url" with
  | none => .error ["Missing data for required field."]
  | some .null => .error ["Field may not be null."]
  | some (.str s) =>
      if validUrl s then .ok s else .error ["Not a valid URL."]
  | some _ => .error ["Not a valid string."]

/-- `fields.String(required=True)` applied to the value at `key`
(used for `git_sha` and `plan_key`). -/
def loadStrField (d : List (String × PyJson)) (key : String) :
    Except (List String) String :=
  match pyLookup d key with
  | none => .error ["Missing data for required field."]
  | some .null => .error ["Field may not be null."]
  | some (.str s) => .ok s
  | some _ => .error ["Not a valid string."]

/-- `fields.Integer(required=True)` at `build_number`: Python `int(value)`
accepts ints, bools (1/0), floats (truncated toward zero) and decimal
strings; everything else fails. -/
def loadIntField (d : List (String × PyJson)) : Except (List String) Int :=
  match pyLookup d "build_number" with
  | none => .error ["Missing data for required field."]
  | some .null => .error ["Field may not be null."]
  | some (.int n) => .ok n
  | some (.bool b) => .ok (if b then 1 else 0)
  | some (.float q) => .ok (q.num.tdiv q.den)
  | some (.str s) =>
      match s.trim.toInt? with
      | some n => .ok n
      | none => .error ["Not a valid integer."]
  | some _ => .error ["Not a valid integer."]

/-- Collect one field's errors under its field name. -/
def fieldErrList (k : String) (e : Except (List String) α) :
    List (String × List String) :=
  match e with
  | .ok _ => []
  | .error ms => [(k, ms)]

/-- `BuildWatcherSchema().load` on a single JSON object: the validated
payload (when every field deserialized) and the field-name → message-list
error map. -/
def buildWatcherLoad (d : List (String × PyJson)) :
    Option Payload × List (String × List String) :=
  let eu := loadUrlField d
  let eg := loadStrField d "git_sha"
  let ep := loadStrField d "plan_key"
  let en := loadIntField d
  let errs := fieldErrList "info_url" eu ++ fieldErrList "git_sha" eg
    ++ fieldErrList "plan_key" ep ++ fieldErrList "build_number" en
  match eu, eg, ep, en with
  | .ok u, .ok g, .ok p, .ok n => (some ⟨u, g, p, n⟩, errs)
  | _, _, _, _ => (none, errs)

/-- An error map rendered as the JSON object that `web.json_response`
serializes: each field maps to the list of its messages. -/
def errsJson (errs : List (String × List String)) : PyJson :=
  .dict (errs.map fun fe => (fe.1, .arr (fe.2.map PyJson.str)))

/-- Loading one element of a `many=True` list: non-objects produce a
schema-level error (library behaviour, modelled from the spec's "extract a
typed, validated request from an untyped wire payload"). -/
def loadItem : PyJson → Option Payload × List (String × List String)
  | .dict d => buildWatcherLoad d
  | _ => (none, [("_schema", ["Invalid input type."])])

/-- `schema().load(xs, many=True)`: element errors keyed by index. -/
def loadManyAux : List PyJson → Nat → Option (List Payload) × List (String × PyJson)
  | [], _ => (some [], [])
  | x :: rest, i =>
      let pe := loadItem x
      let rest' := loadManyAux rest (i + 1)
      let here := if pe.2.isEmpty then [] else [(toString i, errsJson pe.2)]
      (match pe.1, rest'.1 with
       | some a, some l => some (a :: l)
       | _, _ => none,
       here ++ rest'.2)

/-- The payload stored into `request['payload']`: a single object when
`many=False`, a list when the wire payload was a JSON array. -/
inductive LoadedPayload where
  | one (p : Payload)
  | many (ps : List Payload)
deriving Repr, DecidableEq

/-- `payload, err = schema().load(to_load, many=isinstance(to_load, list))`
from `consumes`: the error component is the JSON object `err`; it is falsy
(`if err:` fails) exactly when validation succeeded. -/
def buildWatcherLoadAny : PyJson → Option LoadedPayload × PyJson
  | .arr xs =>
      let r := loadManyAux xs 0
      (r.1.map .many, .dict r.2)
  | .dict d =>
      let r := buildWatcherLoad d
      (r.1.map .one, errsJson r.2)
  | _ => (none, errsJson [("_schema", ["Invalid input type."])])

/-! ### The composed `/api/watch` endpoint -/

/-- The process-wide configuration read from the environment at startup. -/
structure AppConfig where
  bamboo_url : String
  username : String
  password : String
  max_retries : Nat
  retry_interval : Nat
deriving Repr, DecidableEq

/-- An inbound HTTP request as `consumes` observes it.  `jsonBody` is the
outcome of `await request.json(loads=json.loads)`: `none` models the body
being undecodable as JSON (the call raising `json.JSONDecodeError`).
`queryData` is `request.GET`, `formData` is `await request.post()`. -/
structure Request where
  method : String
  contentType : String
  jsonBody : Option PyJson
  queryData : List (String × String)
  formData : List (String × String)

/-- The arguments of the `poll_for_up` coroutine handed to
`loop.create_task` — the spawned background task, which the handler never
awaits and whose outcome it never observes. -/
structure TaskSpec where
  payload : Option LoadedPayload
  bamboo_url : String
  credentials : Option (String × String)
  retries : Nat
  interval : Nat

/-- What the composed endpoint does with a request: either an exception
escapes it (`raised`), or it returns a response (status, JSON body) having
spawned the listed background tasks. -/
inductive HandlerOutcome where
  | raised
  | resp (status : Nat) (body : PyJson) (tasks : List TaskSpec)

/-- The body of `watcher_handler` (innermost): builds the credentials
2-tuple from the app config, hands `poll_for_up(...)` to
`loop.create_task`, and returns `web.json_response({})` — status 200,
empty JSON object — without awaiting the task. -/
def watcher_handler (cfg : AppConfig) (payload : Option LoadedPayload) :
    Nat × PyJson × List TaskSpec :=
  let credentials := some (cfg.username, cfg.password)
  (200, .dict [],
    [⟨payload, cfg.bamboo_url, credentials, cfg.max_retries,
      cfg.retry_interval⟩])

/-- `api_error_handler`: runs the wrapped coroutine; if it raises
`json.JSONDecodeError` (`.error ()`), returns the 400 decode-error
response instead.  Note the decorator wraps only the function it is
applied to — in `watcher_handler`'s stack that is the innermost handler,
not the `consumes` wrapper. -/
def api_error_handler (inner : Except Unit (Nat × PyJson × List TaskSpec)) :
    Nat × PyJson × List TaskSpec :=
  match inner with
  | .ok r => r
  | .error _ => (400, .dict [("error", .str "Unable to decode JSON")], [])

/-- A query/form multidict as the mapping handed to `schema().load`. -/
def strMapJson (xs : List (String × String)) : PyJson :=
  .dict (xs.map fun kv => (kv.1, .str kv.2))

/-- The tail of the `consumes` wrapper once `to_load` is in hand:
validate, answer 400 with the error object if validation failed, else
store the payload and delegate to `api_error_handler(watcher_handler)`
(which cannot raise a decode error: it never parses JSON). -/
def loadAndCall (cfg : AppConfig) (to_load : PyJson) : HandlerOutcome :=
  let pe := buildWatcherLoadAny to_load
  if !pyFalsy pe.2 then .resp 400 pe.2 []
  else
    let r := api_error_handler (.ok (watcher_handler cfg pe.1))
    .resp r.1 r.2.1 r.2.2

/-- The full `/api/watch` endpoint,
`consumes(BuildWatcherSchema)(api_error_handler(watcher_handler))`, with
the `consumes` wrapper outermost exactly as the decorator stack applies.
A `json.JSONDecodeError` raised by `request.json` inside `consumes` is
outside the `api_error_handler` try/except and escapes (`.raised`); a
method other than GET/PUT/POST/PATCH leaves `to_load` unbound and also
raises. -/
def handle (cfg : AppConfig) (req : Request) : HandlerOutcome :=
  if req.method = "GET" then
    loadAndCall cfg (strMapJson req.queryData)
  else if req.method = "PUT" ∨ req.method = "POST" ∨ req.method = "PATCH" then
    if strContains req.contentType "application/json" then
      match req.jsonBody with
      | none => .raised
      | some js => loadAndCall cfg js
    else
      loadAndCall cfg (strMapJson req.formData)
  else .raised

/-! ### Lemmas about the polling loop -/

/-- Once the loop returns a result, more fuel does not change it. -/
theorem waitAux_fuel_mono (responses : Nat → Response) (git_sha : String)
    (retries interval : Nat) (elapsed : Nat → ℚ) :
    ∀ fuel fuel' k r,
      waitAux responses git_sha retries interval elapsed fuel k = some r →
      fuel ≤ fuel' →
      waitAux responses git_sha retries interval elapsed fuel' k = some r := by
  intro fuel
  induction fuel with
  | zero => intro fuel' k r h; simp [waitAux] at h
  | succ fuel ih =>
      intro fuel' k r h hle
      match fuel', hle with
      | fuel'' + 1, _ =>
        rw [waitAux] at h ⊢
        by_cases hb : ((retries * interval : Nat) : ℚ) < elapsed k
        · rw [if_pos hb] at h ⊢; exact h
        · rw [if_neg hb] at h ⊢
          by_cases hc : checkResponse (responses k) git_sha = true
          · rw [if_pos hc] at h ⊢; exact h
          · rw [if_neg hc] at h ⊢
            exact ih fuel'' (k + 1) r h (by omega)

/-- If no response ever matches, the loop runs until the elapsed time at
the top of an iteration exceeds the `retries * interval` budget, then
returns `false`; every iteration it did enter started within budget. -/
theorem waitAux_timeout (responses : Nat → Response) (git_sha : String)
    (retries interval : Nat) (elapsed : Nat → ℚ)
    (Hnm : ∀ j, checkResponse (responses j) git_sha = false)
    (Hstep : ∀ j, elapsed j + interval ≤ elapsed (j + 1)) :
    ∀ (fuel k : Nat),
      ((retries * interval : Nat) : ℚ) < elapsed k + ((fuel * interval : Nat) : ℚ) →
      ∃ n, waitAux responses git_sha retries interval elapsed (fuel + 1) k
          = some (false, n) ∧ k ≤ n ∧
        (∀ j, k ≤ j → j < n → elapsed j ≤ ((retries * interval : Nat) : ℚ)) ∧
        ((retries * interval : Nat) : ℚ) < elapsed n := by
  intro fuel
  induction fuel with
  | zero =>
      intro k hk
      have hk' : ((retries * interval : Nat) : ℚ) < elapsed k := by
        simpa using hk
      refine ⟨k, ?_, le_refl k, ?_, hk'⟩
      · rw [waitAux, if_pos hk']
      · intro j h1 h2; omega
  | succ fuel ih =>
      intro k hk
      by_cases hb : ((retries * interval : Nat) : ℚ) < elapsed k
      · refine ⟨k, ?_, le_refl k, ?_, hb⟩
        · rw [waitAux, if_pos hb]
        · intro j h1 h2; omega
      · push_neg at hb
        have hk1 : ((retries * interval : Nat) : ℚ)
            < elapsed (k + 1) + ((fuel * interval : Nat) : ℚ) := by
          have h1 := Hstep k
          push_cast at hk ⊢
          nlinarith
        obtain ⟨n, hn, hkn, hwithin, hover⟩ := ih (k + 1) hk1
        refine ⟨n, ?_, by omega, ?_, hover⟩
        · rw [waitAux, if_neg (not_lt.mpr hb),
            if_neg (by simp [Hnm k]), hn]
        · intro j h1 h2
          rcases Nat.eq_or_lt_of_le h1 with rfl | h1'
          · exact hb
          · exact hwithin j (by omega) h2

/-- If the first match happens at iteration `i + d` and every iteration up
to it starts within budget, the loop returns `true` there, having issued
exactly `i + d + 1` GETs. -/
theorem waitAux_match (responses : Nat → Response) (git_sha : String)
    (retries interval : Nat) (elapsed : Nat → ℚ) :
    ∀ d i,
      (∀ j, i ≤ j → j < i + d → checkResponse (responses j) git_sha = false) →
      (∀ j, i ≤ j → j ≤ i + d →
        elapsed j ≤ ((retries * interval : Nat) : ℚ)) →
      checkResponse (responses (i + d)) git_sha = true →
      waitAux responses git_sha retries interval elapsed (d + 1) i
        = some (true, i + d + 1) := by
  intro d
  induction d with
  | zero =>
      intro i _ hin hm
      have hle : elapsed i ≤ ((retries * interval : Nat) : ℚ) :=
        hin i (le_refl i) (by omega)
      simp only [Nat.add_zero] at hm
      rw [waitAux, if_neg (not_lt.mpr hle), if_pos hm]
  | succ d ih =>
      intro i hpre hin hm
      have hle : elapsed i ≤ ((retries * interval : Nat) : ℚ) :=
        hin i (le_refl i) (by omega)
      have hci : checkResponse (responses i) git_sha = false :=
        hpre i (le_refl i) (by omega)
      have hm' : checkResponse (responses (i + 1 + d)) git_sha = true := by
        have heq : i + 1 + d = i + (d + 1) := by omega
        rw [heq]; exact hm
      have hrec := ih (i + 1)
        (fun j h1 h2 => hpre j (by omega) (by omega))
        (fun j h1 h2 => hin j (by omega) (by omega)) hm'
      have heq2 : i + 1 + d + 1 = i + (d + 1) + 1 := by omega
      rw [waitAux, if_neg (not_lt.mpr hle), if_neg (by simp [hci]),
        hrec, heq2]

/-! ### Claim theorems about `wait_for_deploy` -/

/-- C3: if every GET before iteration `k` is a non-match, iteration `k`'s
response has status 200 and a JSON body whose `app.git_sha` equals the
expected sha, and the loop is still within its time budget up to `k`, then
`wait_for_deploy` returns confirmed (`true`) at that very iteration and the
total number of GET polls issued is exactly `k + 1` — no further polls
happen after the match. -/
theorem confirmed_returns_immediately (responses : Nat → Response)
    (git_sha : String) (retries interval : Nat) (elapsed : Nat → ℚ)
    (k fuel : Nat)
    (Hpre : ∀ j, j < k → checkResponse (responses j) git_sha = false)
    (Hin : ∀ j, j ≤ k → elapsed j ≤ ((retries * interval : Nat) : ℚ))
    (Hm : checkResponse (responses k) git_sha = true)
    (Hfuel : k + 1 ≤ fuel) :
    wait_for_deploy responses git_sha retries interval elapsed fuel
      = some (true, k + 1) := by
  have hmatch := waitAux_match responses git_sha retries interval elapsed k 0
    (fun j h1 h2 => Hpre j (by omega))
    (fun j h1 h2 => Hin j (by omega))
    (by simpa using Hm)
  have hmono := waitAux_fuel_mono responses git_sha retries interval elapsed
    (k + 1) fuel 0 (true, 0 + k + 1) hmatch Hfuel
  unfold wait_for_deploy
  simpa using hmono

/-- C3 witness: the second poll (index 1) matches; the loop confirms with
exactly two GETs issued. -/
theorem confirmed_returns_immediately_witness :
    wait_for_deploy
      (fun j => if j = 0 then ⟨200, some (.dict [("app", .dict [("git_sha", .str "old")])])⟩
        else ⟨200, some (.dict [("app", .dict [("git_sha", .str "abc123")])])⟩)
      "abc123" 2 1 (fun j => (j : ℚ)) 5 = some (true, 2) := by
  exact confirmed_returns_immediately _ "abc123" 2 1 _ 1 5
    (by intro j hj; interval_cases j; rfl)
    (by intro j hj; interval_cases j <;> norm_num)
    (by rfl)
    (by norm_num)

/-- C4: if no response ever matches, the loop returns unconfirmed
(`false`): there is an iteration count `n` such that every iteration that
was entered (indices `< n`) started with elapsed time within the
`retries * interval` budget — so its sleep ends at most `interval` seconds
past the nominal budget — and the loop exited at the top of iteration `n`,
the first whose start exceeded the budget. -/
theorem unmatched_times_out (responses : Nat → Response) (git_sha : String)
    (retries interval : Nat) (elapsed : Nat → ℚ) (fuel : Nat)
    (Hnm : ∀ j, checkResponse (responses j) git_sha = false)
    (Hstep : ∀ j, elapsed j + interval ≤ elapsed (j + 1))
    (Hint : 1 ≤ interval) (H0 : 0 ≤ elapsed 0)
    (Hfuel : retries + 2 ≤ fuel) :
    ∃ n, wait_for_deploy responses git_sha retries interval elapsed fuel
        = some (false, n) ∧
      (∀ k, k < n → elapsed k ≤ ((retries * interval : Nat) : ℚ)) ∧
      ((retries * interval : Nat) : ℚ) < elapsed n ∧
      (∀ k, k < n →
        elapsed k + interval ≤ ((retries * interval : Nat) : ℚ) + interval) := by
  have hbud : ((retries * interval : Nat) : ℚ)
      < elapsed 0 + (((retries + 1) * interval : Nat) : ℚ) := by
    have h1 : (1 : ℚ) ≤ (interval : ℚ) := by exact_mod_cast Hint
    push_cast
    nlinarith
  obtain ⟨n, hn, _, hwithin, hover⟩ :=
    waitAux_timeout responses git_sha retries interval elapsed Hnm Hstep
      (retries + 1) 0 hbud
  have hmono := waitAux_fuel_mono responses git_sha retries interval elapsed
    (retries + 1 + 1) fuel 0 (false, n) hn (by omega)
  refine ⟨n, ?_, ?_, hover, ?_⟩
  · unfold wait_for_deploy; exact hmono
  · intro k hk; exact hwithin k (by omega) hk
  · intro k hk
    have := hwithin k (by omega) hk
    linarith

/-- C4 witness: all polls return 503; with `retries = 2`, `interval = 1`
and one second per iteration the loop times out unconfirmed. -/
theorem unmatched_times_out_witness :
    ∃ n, wait_for_deploy (fun _ => ⟨503, none⟩) "abc" 2 1 (fun j => (j : ℚ)) 4
        = some (false, n) ∧
      (∀ k, k < n → (k : ℚ) ≤ ((2 * 1 : Nat) : ℚ)) ∧
      ((2 * 1 : Nat) : ℚ) < (n : ℚ) ∧
      (∀ k, k < n → (k : ℚ) + 1 ≤ ((2 * 1 : Nat) : ℚ) + 1) := by
  exact unmatched_times_out (fun _ => ⟨503, none⟩) "abc" 2 1 (fun j => (j : ℚ)) 4
    (fun j => rfl)
    (by intro j; push_cast; linarith)
    (by norm_num)
    (by norm_num)
    (by norm_num)

/-- C5: a non-200 status, an unparseable body (`resp.json()` raising), or
a missing `app.git_sha` (including a non-dict shape, which raises
`AttributeError` into the bare `except`) are all treated as a non-match:
the iteration's check yields `false` and the loop moves on to the next
iteration with the same budget — the failure is absorbed, never surfaced.
(The embedding is a total function: no poll failure can raise out of it,
mirroring the source's `continue`/bare-`except` paths.) -/
theorem poll_failure_absorbed (resp : Response) (git_sha : String)
    (H : resp.status ≠ 200 ∨ resp.body = none ∨
      (∃ js, resp.body = some js ∧
        (shaField js = .error () ∨
          ∃ v, shaField js = .ok v ∧ pyFalsy v = true))) :
    checkResponse resp git_sha = false ∧
    ∀ (responses : Nat → Response) (retries interval : Nat)
      (elapsed : Nat → ℚ) (fuel k : Nat),
      responses k = resp →
      elapsed k ≤ ((retries * interval : Nat) : ℚ) →
      waitAux responses git_sha retries interval elapsed (fuel + 1) k
        = waitAux responses git_sha retries interval elapsed fuel (k + 1) := by
  have hc : checkResponse resp git_sha = false := by
    rcases H with hs | hb | ⟨js, hjs, herr⟩
    · simp [checkResponse, hs]
    · simp [checkResponse, hb]
    · rcases herr with he | ⟨v, hv, hf⟩
      · simp [checkResponse, hjs, he]
      · simp [checkResponse, hjs, hv, hf]
  refine ⟨hc, ?_⟩
  intro responses retries interval elapsed fuel k hk hle
  rw [waitAux, if_neg (not_lt.mpr hle), if_neg (by simp [hk, hc])]

/-- C5 witness: a 503 response is a non-match and the loop simply moves to
the next iteration. -/
theorem poll_failure_absorbed_witness :
    checkResponse ⟨503, none⟩ "abc" = false ∧
    waitAux (fun _ => ⟨503, none⟩) "abc" 2 1 (fun j => (j : ℚ)) 3 0
      = waitAux (fun _ => ⟨503, none⟩) "abc" 2 1 (fun j => (j : ℚ)) 2 1 := by
  have h := poll_failure_absorbed ⟨503, none⟩ "abc" (Or.inl (by norm_num))
  exact ⟨h.1, h.2 (fun _ => ⟨503, none⟩) 2 1 (fun j => (j : ℚ)) 2 0 rfl
    (by norm_num)⟩

/-! ### Claim theorems about `poll_for_up` and `trigger_build` -/

/-- C2: `poll_for_up` invokes `trigger_build` exactly once when
`wait_for_deploy` confirms, and never invokes it when the poll timed out
unconfirmed: the list of trigger invocations it performs is a singleton in
the first case and empty in the second. -/
theorem trigger_once_iff_confirmed (net : String → Nat → Response)
    (elapsed : Nat → ℚ) (fuel : Nat) (js : Payload) (bamboo_url : String)
    (creds : Option (String × String)) (retries interval s : Nat) :
    (∀ n, wait_for_deploy (net js.info_url) js.git_sha retries interval
        elapsed fuel = some (true, n) →
      poll_for_up net elapsed fuel js bamboo_url creds retries interval s
        = some [trigger_build js bamboo_url creds s]) ∧
    (∀ n, wait_for_deploy (net js.info_url) js.git_sha retries interval
        elapsed fuel = some (false, n) →
      poll_for_up net elapsed fuel js bamboo_url creds retries interval s
        = some []) := by
  constructor <;> intro n h <;> simp [poll_for_up, h]

/-- C2 witness: a first-poll confirmation leads to exactly one trigger
call, and an all-503 run to none. -/
theorem trigger_once_iff_confirmed_witness :
    poll_for_up (fun _ _ => ⟨200, some (.dict [("app", .dict [("git_sha", .str "abc")])])⟩)
      (fun j => (j : ℚ)) 4 ⟨"http://x/status", "abc", "REL", 42⟩
      "http://bamboo" (some ("u", "pw")) 2 1 200
      = some [trigger_build ⟨"http://x/status", "abc", "REL", 42⟩
          "http://bamboo" (some ("u", "pw")) 200] ∧
    poll_for_up (fun _ _ => ⟨503, none⟩)
      (fun j => (j : ℚ)) 4 ⟨"http://x/status", "abc", "REL", 42⟩
      "http://bamboo" (some ("u", "pw")) 2 1 200
      = some [] := by
  constructor
  · exact (trigger_once_iff_confirmed
      (fun _ _ => ⟨200, some (.dict [("app", .dict [("git_sha", .str "abc")])])⟩)
      (fun j => (j : ℚ)) 4 ⟨"http://x/status", "abc", "REL", 42⟩
      "http://bamboo" (some ("u", "pw")) 2 1 200).1 1
      (confirmed_returns_immediately _ "abc" 2 1 _ 0 4
        (by intro j hj; omega)
        (by intro j hj; interval_cases j; norm_num)
        (by rfl)
        (by norm_num))
  · obtain ⟨n, hn, -, -, -⟩ := unmatched_times_out
      (fun _ => ⟨503, none⟩) "abc" 2 1 (fun j => (j : ℚ)) 4
      (fun j => rfl) (by intro j; push_cast; linarith)
      (by norm_num) (by norm_num) (by norm_num)
    exact (trigger_once_iff_confirmed (fun _ _ => ⟨503, none⟩)
      (fun j => (j : ℚ)) 4 ⟨"http://x/status", "abc", "REL", 42⟩
      "http://bamboo" (some ("u", "pw")) 2 1 200).2 n hn

/-- C8: `trigger_build` issues exactly one PUT whatever the response
status (no retry); a 400 response takes the "cannot resume" branch, a 200
response the "resumed" branch, and every other status falls through
silently — and the function's Python return value is `None` on all paths
(its observable result here is only the request list and branch taken). -/
theorem trigger_single_attempt_branches (js : Payload) (bamboo_url : String)
    (creds : Option (String × String)) (s : Nat) :
    (trigger_build js bamboo_url creds s).1.length = 1 ∧
    (trigger_build js bamboo_url creds 400).2 = .cannotResume ∧
    (trigger_build js bamboo_url creds 200).2 = .resumed ∧
    (s ≠ 400 → s ≠ 200 → (trigger_build js bamboo_url creds s).2 = .silent) := by
  refine ⟨rfl, rfl, rfl, ?_⟩
  intro h4 h2
  simp [trigger_build, h4, h2]

/-- C8 witness: with a 503 trigger response, one PUT is made and the
outcome is the silent fall-through. -/
theorem trigger_single_attempt_branches_witness :
    (trigger_build ⟨"http://x/status", "abc", "REL", 42⟩ "http://bamboo"
        (some ("u", "pw")) 503).1.length = 1 ∧
    (trigger_build ⟨"http://x/status", "abc", "REL", 42⟩ "http://bamboo"
        (some ("u", "pw")) 400).2 = .cannotResume ∧
    (trigger_build ⟨"http://x/status", "abc", "REL", 42⟩ "http://bamboo"
        (some ("u", "pw")) 200).2 = .resumed ∧
    (trigger_build ⟨"http://x/status", "abc", "REL", 42⟩ "http://bamboo"
        (some ("u", "pw")) 503).2 = .silent := by
  have h := trigger_single_attempt_branches ⟨"http://x/status", "abc", "REL", 42⟩
    "http://bamboo" (some ("u", "pw")) 503
  exact ⟨h.1, h.2.1, h.2.2.1, h.2.2.2 (by norm_num) (by norm_num)⟩

/-- C9: the one request `trigger_build` issues is an HTTP PUT against
`bamboo_url ++ "/rest/api/latest/queue/" ++ plan_key ++ "-" ++
build_number`, with `Accept` and `Content-Type` set to
`application/json`, and carries basic auth exactly when credentials were
supplied. -/
theorem trigger_request_shape (js : Payload) (bamboo_url : String)
    (creds : Option (String × String)) (s : Nat) :
    (trigger_build js bamboo_url creds s).1.map HttpRequest.method = ["PUT"] ∧
    (trigger_build js bamboo_url creds s).1.map HttpRequest.url
      = [bamboo_url ++ "/rest/api/latest/queue/" ++ js.plan_key ++ "-"
          ++ toString js.build_number] ∧
    (trigger_build js bamboo_url creds s).1.map HttpRequest.accept
      = ["application/json"] ∧
    (trigger_build js bamboo_url creds s).1.map HttpRequest.contentType
      = ["application/json"] ∧
    (∀ c, creds = some c →
      (trigger_build js bamboo_url creds s).1.map HttpRequest.auth = [some c]) := by
  refine ⟨rfl, rfl, rfl, rfl, ?_⟩
  intro c hc
  subst hc
  rfl

/-- C9 witness: the PUT for plan `REL`, build 42 goes to
`http://bamboo/rest/api/latest/queue/REL-42` with basic auth. -/
theorem trigger_request_shape_witness :
    (trigger_build ⟨"http://x/status", "abc", "REL", 42⟩ "http://bamboo"
        (some ("u", "pw")) 200).1.map HttpRequest.url
      = ["http://bamboo/rest/api/latest/queue/REL-42"] ∧
    (trigger_build ⟨"http://x/status", "abc", "REL", 42⟩ "http://bamboo"
        (some ("u", "pw")) 200).1.map HttpRequest.auth = [some ("u", "pw")] := by
  have h := trigger_request_shape ⟨"http://x/status", "abc", "REL", 42⟩
    "http://bamboo" (some ("u", "pw")) 200
  exact ⟨h.2.1, h.2.2.2.2 ("u", "pw") rfl⟩

/-! ### Lemmas about the composed endpoint -/

/-- The error object serialized from a nonempty error map is truthy
(`if err:` takes the 400 branch), from an empty one falsy. -/
theorem pyFalsy_errsJson (errs : List (String × List String)) :
    pyFalsy (errsJson errs) = errs.isEmpty := by
  cases errs <;> rfl

/-- The error component of `BuildWatcherSchema().load` is the
concatenation of the four fields' error entries, in schema order. -/
theorem buildWatcherLoad_snd (d : List (String × PyJson)) :
    (buildWatcherLoad d).2
      = fieldErrList "info_url" (loadUrlField d)
        ++ fieldErrList "git_sha" (loadStrField d "git_sha")
        ++ fieldErrList "plan_key" (loadStrField d "plan_key")
        ++ fieldErrList "build_number" (loadIntField d) := by
  unfold buildWatcherLoad
  cases h1 : loadUrlField d <;> cases h2 : loadStrField d "git_sha" <;>
    cases h3 : loadStrField d "plan_key" <;> cases h4 : loadIntField d <;>
    simp [h1, h2, h3, h4]

/-- A POST request with a JSON content type whose body decoded to the
object `d` reaches `schema().load(d)` inside the `consumes` wrapper. -/
theorem handle_post_json (cfg : AppConfig) (req : Request)
    (d : List (String × PyJson))
    (hm : req.method = "POST")
    (hct : strContains req.contentType "application/json" = true)
    (hb : req.jsonBody = some (.dict d)) :
    handle cfg req = loadAndCall cfg (.dict d) := by
  unfold handle
  rw [hm, hb]
  rw [if_neg (by decide), if_pos (by decide), if_pos hct]

/-- A fully valid payload makes the composed endpoint answer
`200 {}` and spawn exactly one `poll_for_up` task carrying the payload,
the configured Bamboo URL, the credential 2-tuple and the retry policy. -/
theorem handle_valid_eq (cfg : AppConfig) (req : Request)
    (d : List (String × PyJson)) (p : Payload)
    (hm : req.method = "POST")
    (hct : strContains req.contentType "application/json" = true)
    (hb : req.jsonBody = some (.dict d))
    (hload : buildWatcherLoad d = (some p, [])) :
    handle cfg req = .resp 200 (.dict [])
      [⟨some (.one p), cfg.bamboo_url, some (cfg.username, cfg.password),
        cfg.max_retries, cfg.retry_interval⟩] := by
  rw [handle_post_json cfg req d hm hct hb]
  unfold loadAndCall buildWatcherLoadAny
  dsimp only
  rw [hload]
  rfl

/-- A payload with validation errors makes the composed endpoint answer
400 with the serialized error map and spawn nothing. -/
theorem handle_invalid_eq (cfg : AppConfig) (req : Request)
    (d : List (String × PyJson))
    (hm : req.method = "POST")
    (hct : strContains req.contentType "application/json" = true)
    (hb : req.jsonBody = some (.dict d))
    (herr : (buildWatcherLoad d).2 ≠ []) :
    handle cfg req = .resp 400 (errsJson (buildWatcherLoad d).2) [] := by
  rw [handle_post_json cfg req d hm hct hb]
  unfold loadAndCall buildWatcherLoadAny
  dsimp only
  have hfal : pyFalsy (errsJson (buildWatcherLoad d).2) = false := by
    rw [pyFalsy_errsJson]
    simpa using herr
  simp [hfal]

/-! ### Claim theorems about the endpoint -/

/-- C1 (code bug): the claim says a malformed JSON body is caught and
answered with `400 {"error": "Unable to decode JSON"}`.  In the source the
decorator stack is `consumes(BuildWatcherSchema)` **outside**
`api_error_handler`, and the body decode (`request.json`) happens inside
the `consumes` wrapper — so the `json.JSONDecodeError` escapes the
composed handler uncaught (first conjunct: the endpoint raises).  The 400
decode-error response exists only in `api_error_handler`, which on this
stack wraps the inner handler that never parses JSON (second conjunct:
the intended behaviour of the dead wrapper). -/
theorem decode_error_escapes_uncaught :
    handle ⟨"http://bamboo", "u", "pw", 6, 10⟩
        ⟨"POST", "application/json", none, [], []⟩ = .raised ∧
    api_error_handler (.error ())
      = (400, .dict [("error", .str "Unable to decode JSON")], []) := by
  exact ⟨rfl, rfl⟩

/-- C6: every POST whose JSON object body passes validation is answered
with HTTP 200 and the empty JSON object, and exactly one background
`poll_for_up` task is spawned, detached: the response carries no
information from the task (the task's environment — poll responses,
clock — is not even an input of `handle`), so the acknowledgment cannot
depend on, or wait for, the poll/trigger outcome. -/
theorem valid_payload_ack_and_detached_spawn (cfg : AppConfig)
    (req : Request) (d : List (String × PyJson)) (p : Payload)
    (hm : req.method = "POST")
    (hct : strContains req.contentType "application/json" = true)
    (hb : req.jsonBody = some (.dict d))
    (hload : buildWatcherLoad d = (some p, [])) :
    handle cfg req = .resp 200 (.dict [])
      [⟨some (.one p), cfg.bamboo_url, some (cfg.username, cfg.password),
        cfg.max_retries, cfg.retry_interval⟩] :=
  handle_valid_eq cfg req d p hm hct hb hload

/-- C6 witness: a concrete valid watch request is acknowledged with
`200 {}` and spawns one task. -/
theorem valid_payload_ack_witness :
    handle ⟨"http://bamboo", "u", "pw", 6, 10⟩
      ⟨"POST", "application/json",
        some (.dict [("info_url", .str "http://x/status"),
          ("git_sha", .str "abc123"), ("plan_key", .str "REL"),
          ("build_number", .int 42)]), [], []⟩
      = .resp 200 (.dict [])
        [⟨some (.one ⟨"http://x/status", "abc123", "REL", 42⟩),
          "http://bamboo", some ("u", "pw"), 6, 10⟩] := by
  exact valid_payload_ack_and_detached_spawn
    ⟨"http://bamboo", "u", "pw", 6, 10⟩ _ _
    ⟨"http://x/status", "abc123", "REL", 42⟩ rfl rfl rfl rfl

/-- C7: if any required field of the payload is missing or invalid, the
endpoint answers HTTP 400 with the error object mapping each failing field
to its list of messages and spawns no background task; in particular, a
missing required field is always named in the error map. -/
theorem invalid_payload_rejected (cfg : AppConfig) (req : Request)
    (d : List (String × PyJson))
    (hm : req.method = "POST")
    (hct : strContains req.contentType "application/json" = true)
    (hb : req.jsonBody = some (.dict d))
    (herr : (buildWatcherLoad d).2 ≠ []) :
    handle cfg req = .resp 400 (errsJson (buildWatcherLoad d).2) [] ∧
    ∀ f, f ∈ ["info_url", "git_sha", "plan_key", "build_number"] →
      pyLookup d f = none →
      (f, ["Missing data for required field."]) ∈ (buildWatcherLoad d).2 := by
  refine ⟨handle_invalid_eq cfg req d hm hct hb herr, ?_⟩
  intro f hf hmiss
  rw [buildWatcherLoad_snd]
  fin_cases hf
  · simp [loadUrlField, hmiss, fieldErrList]
  · simp [loadStrField, hmiss, fieldErrList]
  · simp [loadStrField, hmiss, fieldErrList]
  · simp [loadIntField, hmiss, fieldErrList]

/-- C7 witness: a request missing `git_sha`, `plan_key` and
`build_number` gets a 400 naming `git_sha` in the error map, with no task
spawned. -/
theorem invalid_payload_rejected_witness :
    handle ⟨"http://bamboo", "u", "pw", 6, 10⟩
        ⟨"POST", "application/json",
          some (.dict [("info_url", .str "http://x/status")]), [], []⟩
      = .resp 400
          (errsJson (buildWatcherLoad [("info_url", .str "http://x/status")]).2)
          [] ∧
    ("git_sha", ["Missing data for required field."])
      ∈ (buildWatcherLoad [("info_url", .str "http://x/status")]).2 := by
  have h := invalid_payload_rejected ⟨"http://bamboo", "u", "pw", 6, 10⟩
    ⟨"POST", "application/json",
      some (.dict [("info_url", .str "http://x/status")]), [], []⟩
    [("info_url", .str "http://x/status")] rfl rfl rfl (by decide)
  exact ⟨h.1, h.2 "git_sha" (by simp) rfl⟩

/-- C10: along the handler path the credentials handed to the spawned
task are always the 2-tuple `(BAMBOO_USERNAME, BAMBOO_PASSWORD)` — never
`None` — and a 2-tuple is truthy in Python regardless of its contents, so
the trigger PUT always carries basic auth; the no-credentials branch of
`trigger_build` is unreachable from the handler, even when both
configured strings are empty. -/
theorem handler_auth_always_basic (cfg : AppConfig) (req : Request)
    (d : List (String × PyJson)) (p : Payload)
    (hm : req.method = "POST")
    (hct : strContains req.contentType "application/json" = true)
    (hb : req.jsonBody = some (.dict d))
    (hload : buildWatcherLoad d = (some p, [])) :
    ∃ t : TaskSpec,
      (∃ st body, handle cfg req = .resp st body [t]) ∧
      t.credentials = some (cfg.username, cfg.password) ∧
      pyTruthyCreds t.credentials = true ∧
      ∀ s, (trigger_build p cfg.bamboo_url t.credentials s).1.map
        HttpRequest.auth = [some (cfg.username, cfg.password)] := by
  refine ⟨⟨some (.one p), cfg.bamboo_url, some (cfg.username, cfg.password),
    cfg.max_retries, cfg.retry_interval⟩,
    ⟨200, .dict [], handle_valid_eq cfg req d p hm hct hb hload⟩,
    rfl, rfl, fun s => rfl⟩

/-- C10 witness: with empty-string credentials configured, the spawned
task still carries `some ("", "")` and the trigger PUT still sets basic
auth. -/
theorem handler_auth_always_basic_witness :
    ∃ t : TaskSpec,
      (∃ st body, handle ⟨"http://bamboo", "", "", 6, 10⟩
          ⟨"POST", "application/json",
            some (.dict [("info_url", .str "http://x/status"),
              ("git_sha", .str "abc123"), ("plan_key", .str "REL"),
              ("build_number", .int 42)]), [], []⟩ = .resp st body [t]) ∧
      t.credentials = some ("", "") ∧
      pyTruthyCreds t.credentials = true ∧
      ∀ s, (trigger_build ⟨"http://x/status", "abc123", "REL", 42⟩
          "http://bamboo" t.credentials s).1.map HttpRequest.auth
        = [some ("", "")] := by
  exact handler_auth_always_basic ⟨"http://bamboo", "", "", 6, 10⟩ _ _
    ⟨"http://x/status", "abc123", "REL", 42⟩ rfl rfl rfl rfl

end BambooWatch
